import Mathlib

/-!
Verification of the adaptive position-lifecycle engine of the trading bot
(`bot/run_live_week.py` and `bot/analyzer_v2.py`), as a shallow embedding.

Python floats are modelled as rationals (`ℚ`); all claims under scrutiny are
about control flow, comparisons, and exact arithmetic identities, none about
binary floating-point rounding.  External collaborators (venue, ledger
database, indicator provider) are modelled as oracle inputs: every value that
the code obtains from a collaborator call is a parameter of the corresponding
Lean function, carrying exactly the values the call site in the source can
observe.
-/

namespace TradingBot

/-- A position is long or short; the source stores the strings `"long"` /
`"short"` and only ever produces these two values. -/
inductive Side
  | long
  | short
deriving DecidableEq

/-- One open position, the value of `open_positions[key]` in
`run_live_week.main` (minus the opaque `conn` / order-id / trade-id fields,
which carry no numeric state). -/
structure Position where
  side : Side
  entry : ℚ
  sl : ℚ
  tp1 : ℚ
  tp2 : ℚ
  qty : ℚ
  R : ℚ
  bars : ℕ
  tp1_done : Bool
  tp2_done : Bool
  moved_to_be : Bool
  realized_pnl : ℚ
deriving DecidableEq

/-- The `TradeManager` attributes read by the tick loop (`tm.*` in
`run_live_week.main`), refreshed from the Brain. -/
structure TradeParams where
  atr_k_sl : ℚ
  r1_R : ℚ
  r2_R : ℚ
  p1_pct : ℚ
  p2_pct : ℚ
  be_after_R : ℚ
  trail_atr_k : ℚ
  max_bars_in_trade : ℕ
deriving DecidableEq

/-- Function `round_step` from `run_live_week.py`: floor `x` to a multiple of `step`;
a non-positive step returns `x` unchanged. -/
def round_step (x step : ℚ) : ℚ :=
  if step ≤ 0 then x else (⌊x / step⌋ : ℚ) * step

/-- Step rounding inside `normalize_position_qty` (applied only when a
positive step is known). -/
def rounded_qty (step qty : ℚ) : ℚ :=
  if 0 < step then round_step qty step else qty

/-- The `threshold` local of `normalize_position_qty`: the venue minimum
when known, else `1e-8`. -/
def dust_threshold (min_qty : ℚ) : ℚ :=
  if 0 < min_qty then min_qty else 1 / 100000000

/-- Function `normalize_position_qty` from `run_live_week.py`.  `step` and `min_qty`
are the values obtained from the venue market data (both `0` when the
connector is absent or the lookup raised). -/
def normalize_position_qty (step min_qty qty : ℚ) : ℚ :=
  if qty ≤ 0 then 0
  else if rounded_qty step qty < dust_threshold min_qty then 0
  else rounded_qty step qty

/-- Function `compute_close_qty` from `run_live_week.py`.  `live?` is the quantity
reported by `get_live_position_qty` (`none` = unknown, in which case the
stored fallback quantity is used).  Returns `(close_qty, live_qty)`. -/
def compute_close_qty (requested fallback : ℚ) (live? : Option ℚ) : ℚ × ℚ :=
  if requested ≤ 0 then (0, fallback)
  else if max (live?.getD fallback) 0 ≤ 0 then (0, max (live?.getD fallback) 0)
  else if min requested (max (live?.getD fallback) 0) ≤ 0 then (0, max (live?.getD fallback) 0)
  else (min requested (max (live?.getD fallback) 0), max (live?.getD fallback) 0)

/-- What the venue returns during the management of one position on one
tick.  Each field is the result of one collaborator call in the source:
`connPresent` is `pos.get("conn") is not None`; `step` / `min_amount` are the
market step and minimum amount (the per-stage lookups hit the same market
dict and are modelled as returning one stable value for the tick, `0` on
failure); `liveTP1` … `liveTIME` are the four `get_live_position_qty` results
(the live quantity genuinely changes between stages after partial closes);
`okTP1` … `okTIME` say whether the corresponding `place_order` call returned
an order id. -/
structure VenueTick where
  connPresent : Bool
  step : ℚ
  min_amount : ℚ
  liveTP1 : Option ℚ
  liveTP2 : Option ℚ
  liveSL : Option ℚ
  liveTIME : Option ℚ
  okTP1 : Bool
  okTP2 : Bool
  okSL : Bool
  okTIME : Bool
deriving DecidableEq

/-- Dust test used before every exit: the live quantity is positive, a
venue minimum is known, and the live quantity is below it. -/
def isDust (live min_amount : ℚ) : Bool :=
  decide (0 < live) && decide (0 < min_amount) && decide (live < min_amount)

/-- Directional realized P&L of a partial/full close. -/
def directional_pnl (side : Side) (entry price q : ℚ) : ℚ :=
  match side with
  | .long => (price - entry) * q
  | .short => (entry - price) * q

/-- Trailing-stop update (first step of the per-tick order).  `atr?` is
`None` when the ATR cell is NaN; the source guards with Python truthiness
(`if atr_now:`), so an ATR of exactly `0` also skips the update. -/
def applyTrailing (tp : TradeParams) (price : ℚ) (atr? : Option ℚ) (p : Position) : Position :=
  match atr? with
  | none => p
  | some a =>
    if a = 0 then p
    else
      match p.side with
      | .long => { p with sl := max p.sl (price - tp.trail_atr_k * a) }
      | .short => { p with sl := min p.sl (price + tp.trail_atr_k * a) }

/-- Break-even update (second step): once unrealized profit reaches
`be_after_R × R`, pull the stop to the entry (only tightening). -/
def applyBreakEven (tp : TradeParams) (price : ℚ) (atr? : Option ℚ) (p : Position) : Position :=
  match atr? with
  | none => p
  | some a =>
    if p.moved_to_be then p
    else if a = 0 then p
    else
      match p.side with
      | .long =>
        if p.entry + tp.be_after_R * p.R ≤ price then
          { p with sl := max p.sl p.entry, moved_to_be := true }
        else p
      | .short =>
        if price ≤ p.entry - tp.be_after_R * p.R then
          { p with sl := min p.sl p.entry, moved_to_be := true }
        else p

/-- TP1 trigger condition of the source (`not tp1_done` and price beyond the
TP1 level in the position's direction). -/
def tp1Trigger (p : Position) (price : ℚ) : Bool :=
  !p.tp1_done &&
    (match p.side with
     | .long => decide (p.tp1 ≤ price)
     | .short => decide (price ≤ p.tp1))

/-- TP2 trigger condition. -/
def tp2Trigger (p : Position) (price : ℚ) : Bool :=
  !p.tp2_done &&
    (match p.side with
     | .long => decide (p.tp2 ≤ price)
     | .short => decide (price ≤ p.tp2))

/-- Stop-loss trigger condition (price has crossed the — possibly already
moved — stop). -/
def slTrigger (p : Position) (price : ℚ) : Bool :=
  match p.side with
  | .long => decide (price ≤ p.sl)
  | .short => decide (p.sl ≤ price)

/-- Time-exit trigger condition, checked after the bars counter has been
incremented. -/
def timeTrigger (tp : TradeParams) (p : Position) : Bool :=
  decide (tp.max_bars_in_trade ≤ p.bars) && !p.tp2_done

/-- Exit types written to the ledger by `close_live_trade`. -/
inductive ExitType
  | DUST
  | SL
  | TIME
deriving DecidableEq

/-- One ledger close record (`close_live_trade` call): exit type and exit
price. -/
structure ExitRec where
  etype : ExitType
  exit_price : ℚ
deriving DecidableEq

/-- Trade-event rows appended to the trades CSV. -/
inductive EventType
  | TP1
  | TP2
  | SL
  | TIME
deriving DecidableEq

/-- One CSV trade event: type, price, closed quantity, realized P&L. -/
structure TradeEvent where
  etype : EventType
  price : ℚ
  qty : ℚ
  pnl : ℚ
deriving DecidableEq

/-- Mutable state threaded through the four exit stages of one position on
one tick.  `closed` models membership of the key in `to_close`; `skip`
models a Python `continue` (the remaining stages of this position are
skipped). -/
structure TickSt where
  pos : Position
  equity : ℚ
  closed : Bool
  exits : List ExitRec
  events : List TradeEvent
  skip : Bool
deriving DecidableEq

/-- TP1 stage.  `qtyStart` is the `qty = pos["qty"]` binding captured at the
top of the loop body (the source computes the requested TP1 quantity from
it, not from the current `pos["qty"]`). -/
def tp1Stage (tp : TradeParams) (v : VenueTick) (price qtyStart : ℚ) (s : TickSt) : TickSt :=
  if s.skip then s
  else
    let p := s.pos
    if tp1Trigger p price then
      let requested := qtyStart * tp.p1_pct
      let cc := compute_close_qty requested p.qty v.liveTP1
      let close_qty := cc.1
      let live := cc.2
      if isDust live v.min_amount then
        { s with
          pos := { p with qty := 0, tp1_done := true, tp2_done := true },
          closed := true, skip := true,
          exits := s.exits ++ [⟨ExitType.DUST, price⟩] }
      else if close_qty ≤ 0 then s
      else if v.connPresent && v.okTP1 then
        let pnl := directional_pnl p.side p.entry price close_qty
        let new_qty_raw := max 0 (live - close_qty)
        { s with
          pos := { p with
            qty := normalize_position_qty v.step v.min_amount new_qty_raw,
            tp1_done := true,
            realized_pnl := p.realized_pnl + pnl },
          equity := s.equity + pnl,
          events := s.events ++ [⟨EventType.TP1, price, close_qty, pnl⟩] }
      else s
    else s

/-- TP2 stage.  The requested quantity is `pos["qty"] * p2_pct` with the
current (possibly TP1-reduced) quantity. -/
def tp2Stage (tp : TradeParams) (v : VenueTick) (price : ℚ) (s : TickSt) : TickSt :=
  if s.skip then s
  else
    let p := s.pos
    if tp2Trigger p price then
      let requested := p.qty * tp.p2_pct
      let cc := compute_close_qty requested p.qty v.liveTP2
      let close_qty := cc.1
      let live := cc.2
      if isDust live v.min_amount then
        { s with
          pos := { p with qty := 0, tp1_done := true, tp2_done := true },
          closed := true, skip := true,
          exits := s.exits ++ [⟨ExitType.DUST, price⟩] }
      else if close_qty ≤ 0 then s
      else if v.connPresent && v.okTP2 then
        let pnl := directional_pnl p.side p.entry price close_qty
        let new_qty_raw := max 0 (live - close_qty)
        { s with
          pos := { p with
            qty := normalize_position_qty v.step v.min_amount new_qty_raw,
            tp2_done := true,
            realized_pnl := p.realized_pnl + pnl },
          equity := s.equity + pnl,
          events := s.events ++ [⟨EventType.TP2, price, close_qty, pnl⟩] }
      else s
    else s

/-- Stop-loss stage.  On success the exit price is the stored stop, the
ledger records `SL`, and the key goes to `to_close`; the dust branch records
`DUST` at the stop price and continues. -/
def slStage (v : VenueTick) (price : ℚ) (s : TickSt) : TickSt :=
  if s.skip then s
  else
    let p := s.pos
    if slTrigger p price then
      let cc := compute_close_qty p.qty p.qty v.liveSL
      let close_qty := cc.1
      let live := cc.2
      if isDust live v.min_amount then
        { s with
          pos := { p with qty := 0 },
          closed := true, skip := true,
          exits := s.exits ++ [⟨ExitType.DUST, p.sl⟩] }
      else if close_qty ≤ 0 || !v.connPresent then s
      else if v.okSL then
        let pnl := directional_pnl p.side p.entry p.sl close_qty
        let new_qty_raw := max 0 (live - close_qty)
        { s with
          pos := { p with
            qty := normalize_position_qty v.step v.min_amount new_qty_raw,
            realized_pnl := p.realized_pnl + pnl },
          equity := s.equity + pnl,
          closed := true,
          exits := s.exits ++ [⟨ExitType.SL, p.sl⟩],
          events := s.events ++ [⟨EventType.SL, p.sl, close_qty, pnl⟩] }
      else s
    else s

/-- Time-exit stage.  The bars counter is incremented unconditionally (unless
an earlier `continue` fired), then the forced close runs when the counter has
reached `max_bars_in_trade` and TP2 has not completed. -/
def timeStage (tp : TradeParams) (v : VenueTick) (price : ℚ) (s : TickSt) : TickSt :=
  if s.skip then s
  else
    let p := { s.pos with bars := s.pos.bars + 1 }
    if timeTrigger tp p then
      let cc := compute_close_qty p.qty p.qty v.liveTIME
      let close_qty := cc.1
      let live := cc.2
      if isDust live v.min_amount then
        { s with
          pos := { p with qty := 0 },
          closed := true, skip := true,
          exits := s.exits ++ [⟨ExitType.DUST, price⟩] }
      else if close_qty ≤ 0 || !v.connPresent then { s with pos := p }
      else if v.okTIME then
        let pnl := directional_pnl p.side p.entry price close_qty
        let new_qty_raw := max 0 (live - close_qty)
        { s with
          pos := { p with
            qty := normalize_position_qty v.step v.min_amount new_qty_raw,
            realized_pnl := p.realized_pnl + pnl },
          equity := s.equity + pnl,
          closed := true,
          exits := s.exits ++ [⟨ExitType.TIME, price⟩],
          events := s.events ++ [⟨EventType.TIME, price, close_qty, pnl⟩] }
      else { s with pos := p }
    else { s with pos := p }

/-- The two stop updates of the tick in source order: trailing first, then
break-even. -/
def stopUpdate (tp : TradeParams) (price : ℚ) (atr? : Option ℚ) (p : Position) : Position :=
  applyBreakEven tp price atr? (applyTrailing tp price atr? p)

/-- Result of managing one open position on one tick. -/
structure ManageResult where
  pos : Position
  equity : ℚ
  closed : Bool
  exits : List ExitRec
  events : List TradeEvent
deriving DecidableEq

/-- The complete per-tick update of one open position, in the source's order:
trailing stop, break-even, TP1, TP2, stop-loss, time exit. -/
def manageOne (tp : TradeParams) (v : VenueTick) (price : ℚ) (atr? : Option ℚ)
    (p : Position) (equity : ℚ) : ManageResult :=
  let qtyStart := p.qty
  let p1 := stopUpdate tp price atr? p
  let s0 : TickSt := ⟨p1, equity, false, [], [], false⟩
  let s := timeStage tp v price (slStage v price (tp2Stage tp v price (tp1Stage tp v price qtyStart s0)))
  ⟨s.pos, s.equity, s.closed, s.exits, s.events⟩

/-- Position key: `(connector name, symbol)`. -/
abbrev SymKey := String × String

/-- The last feature row per key fetched this tick (`snapshots[key]`):
close price, ATR (`none` when NaN), and the two boolean entry signals. -/
structure Snapshot where
  close : ℚ
  atr : Option ℚ
  long_setup : Bool
  short_setup : Bool
deriving DecidableEq

/-- One iteration of the "manage existing positions" loop: a position with
no snapshot this tick is kept unchanged, otherwise it is run through
`manageOne`; a closed position is dropped from the surviving open set (keys
are unique, so dropping during the fold equals the source's popping of
`to_close` at the end of the section). -/
def manageStep (tp : TradeParams) (venue : SymKey → VenueTick) (snaps : SymKey → Option Snapshot)
    (acc : List (SymKey × Position) × ℚ) (kp : SymKey × Position) :
    List (SymKey × Position) × ℚ :=
  match snaps kp.1 with
  | none => (acc.1 ++ [kp], acc.2)
  | some sn =>
    let r := manageOne tp (venue kp.1) sn.close sn.atr kp.2 acc.2
    (if r.closed then acc.1 else acc.1 ++ [(kp.1, r.pos)], r.equity)

/-- The whole "manage existing positions" section of the tick, threading
equity through the per-position updates. -/
def manageTick (tp : TradeParams) (venue : SymKey → VenueTick) (snaps : SymKey → Option Snapshot)
    (opens : List (SymKey × Position)) (equity : ℚ) : List (SymKey × Position) × ℚ :=
  opens.foldl (manageStep tp venue snaps) ([], equity)

/-- The `STABLE_TOKENS` set; listed with the longer tokens first, matching
`sorted(STABLE_TOKENS, key=len, reverse=True)` (the order among the
equal-length tokens is irrelevant: a string can end with at most one of
them). -/
def STABLE_TOKENS : List String := ["USDT", "USDC", "USDG", "USD"]

/-- The suffix loop of `_extract_base_quote`: first stable token that is a
suffix of `core` leaving a nonempty stripped base wins. -/
def stableSuffixSplit : List String → String → Option (String × String)
  | [], _ => none
  | q :: qs, core =>
    if core.endsWith q then
      let base := (core.dropRight q.length).trim
      if base = "" then stableSuffixSplit qs core else some (base, q)
    else stableSuffixSplit qs core

/-- Function `_extract_base_quote` from `run_live_week.py`: uppercase, drop a futures
suffix after a colon, then split at the first slash (stripping both sides),
else guess by stable suffix. -/
def extract_base_quote (symbol : String) : Option (String × String) :=
  if symbol = "" then none
  else
    let core := ((symbol.toUpper).splitOn ":").headD ""
    match core.splitOn "/" with
    | [] => none
    | [_] => stableSuffixSplit STABLE_TOKENS core
    | b :: rest => some (b.trim, (String.intercalate "/" rest).trim)

/-- Function `is_stable_pair_symbol`: both sides of the pair parse and are stable
tokens (an empty base or quote is falsy in the source and yields `False`). -/
def is_stable_pair_symbol (symbol : String) : Bool :=
  match extract_base_quote symbol with
  | none => false
  | some (b, q) =>
    if b = "" then false
    else if q = "" then false
    else decide (b ∈ STABLE_TOKENS) && decide (q ∈ STABLE_TOKENS)

/-- The startup hard guard applied to every connector's symbol list:
`[s for s in valid_syms if not is_stable_pair_symbol(s)]`. -/
def filter_valid_symbols (syms : List String) : List String :=
  syms.filter (fun s => !is_stable_pair_symbol s)

/-- The `RiskManager` attributes the entry evaluation reads (`rm.*`),
plus the brain-maintained hard per-position notional cap. -/
structure RiskParams where
  risk_per_trade : ℚ
  max_position_pct : ℚ
  max_notional_pct_hard : ℚ
deriving DecidableEq

/-- Portfolio notional of the open set before entry evaluation
(`run_live_week.py` lines 1308-1314): positions without a snapshot this tick
contribute nothing. -/
def portfolio_notional (snaps : SymKey → Option Snapshot) (opens : List (SymKey × Position)) : ℚ :=
  opens.foldl
    (fun acc kp =>
      match snaps kp.1 with
      | none => acc
      | some sn => acc + kp.2.qty * sn.close)
    0

/-- Value of `remaining_notional` as first computed for the tick:
`max(0, equity * rm.max_position_pct - portfolio_notional)`. -/
def remaining_notional_start (equity max_position_pct : ℚ) (snaps : SymKey → Option Snapshot)
    (opens : List (SymKey × Position)) : ℚ :=
  max 0 (equity * max_position_pct - portfolio_notional snaps opens)

/-- Venue limits observed during one entry evaluation.  For a CCXT symbol:
`step` from `determine_amount_step`, `min_qty` / `min_cost` from the market
limits, `bp_cap = none` (no buying-power cap).  For an Alpaca symbol:
`step = 1`, no minimums, `bp_cap` the buying-power quantity cap (or `none`
when the buying power is `0`). -/
structure MarketLimits where
  step : ℚ
  min_qty : Option ℚ
  min_cost : Option ℚ
  bp_cap : Option ℚ
deriving DecidableEq

/-- Quantity candidate before step rounding: the minimum of the risk-budget
quantity and the equity / remaining-budget / buying-power / hard-cap
quantity caps, floored at `0` (`run_live_week.py` lines 1400-1417). -/
def entry_qty_raw (equity risk_per_trade max_position_pct max_notional_pct_hard remaining price R : ℚ)
    (bp_cap : Option ℚ) : ℚ :=
  let qty_risk := equity * risk_per_trade / max R (1 / 1000000000000)
  let qty_cap_equity := equity * max_position_pct / max price (1 / 1000000000)
  let qty_cap_remaining := remaining / max price (1 / 1000000000)
  let qty_cap_hard := max_notional_pct_hard * equity / max price (1 / 1000000000)
  let m := min qty_risk (min qty_cap_equity (min qty_cap_remaining qty_cap_hard))
  let m := match bp_cap with
    | none => m
    | some b => min m b
  max 0 m

/-- Full entry sizing (`run_live_week.py` lines 1400-1426): step-round the
raw quantity, bump to the venue minimum quantity when below it, then bump to
the minimum notional when below it.  Neither bump consults the remaining
budget. -/
def entry_qty (equity risk_per_trade max_position_pct max_notional_pct_hard remaining price R : ℚ)
    (lim : MarketLimits) : ℚ :=
  let qty0 := round_step (entry_qty_raw equity risk_per_trade max_position_pct
    max_notional_pct_hard remaining price R lim.bp_cap) lim.step
  let qty1 := match lim.min_qty with
    | some mq => if qty0 < mq then round_step mq lim.step else qty0
    | none => qty0
  match lim.min_cost with
  | some mc =>
    if qty1 * price < mc then round_step (max qty1 (mc / max price (1 / 1000000000))) lim.step
    else qty1
  | none => qty1

/-- One candidate of the new-entries loop, in iteration order (connector,
then symbol).  `cooldown` is the current `cooldowns[key]`; `hoursBlocked`
is the composite "Alpaca equity symbol outside market hours" skip;
`limits` and `orderOk` are the venue responses for this candidate. -/
structure EntryCand where
  key : SymKey
  cooldown : ℕ
  hoursBlocked : Bool
  limits : MarketLimits
  orderOk : Bool
deriving DecidableEq

/-- One iteration of the new-entries loop (`run_live_week.py` lines
1320-1488) as a partial decision: `none` when any of the skip guards fires
(stable pair, blocked symbol, exhausted budget, already open, cooldown,
market hours, missing/degenerate snapshot, no signal, non-positive risk
distance, non-positive quantity, failed entry order), otherwise the created
position and its notional. -/
def entryPos (rp : RiskParams) (tp : TradeParams) (blocked : List String)
    (snaps : SymKey → Option Snapshot) (equity : ℚ) (opens : List (SymKey × Position))
    (remaining : ℚ) (c : EntryCand) : Option Position :=
  if is_stable_pair_symbol c.key.2 then none
  else if c.key.2 ∈ blocked then none
  else if remaining ≤ 0 then none
  else if opens.any (fun kp => kp.1 = c.key) then none
  else if 0 < c.cooldown then none
  else if c.hoursBlocked then none
  else
    match snaps c.key with
    | none => none
    | some row =>
      match row.atr with
      | none => none
      | some a =>
        if a ≤ 0 then none
        else
          let sig : Int := if row.long_setup then 1 else if row.short_setup then -1 else 0
          if sig = 0 then none
          else
            let price := row.close
            let side := if sig = 1 then Side.long else Side.short
            let sl := match side with
              | .long => price - tp.atr_k_sl * a
              | .short => price + tp.atr_k_sl * a
            let R := match side with
              | .long => price - sl
              | .short => sl - price
            if R ≤ 0 then none
            else
              let qty := entry_qty equity rp.risk_per_trade rp.max_position_pct
                rp.max_notional_pct_hard remaining price R c.limits
              if qty ≤ 0 then none
              else if !c.orderOk then none
              else
                let tp1 := match side with
                  | .long => price + tp.r1_R * R
                  | .short => price - tp.r1_R * R
                let tp2 := match side with
                  | .long => price + tp.r2_R * R
                  | .short => price - tp.r2_R * R
                some ⟨side, price, sl, tp1, tp2, qty, R, 0, false, false, false, 0⟩

/-- The accepted entry together with its notional
(`entry_notional = qty * price`, and the created position stores
`entry := price` and `qty := qty`, so the notional is
`position.qty × position.entry`). -/
def entryDecision (rp : RiskParams) (tp : TradeParams) (blocked : List String)
    (snaps : SymKey → Option Snapshot) (equity : ℚ) (opens : List (SymKey × Position))
    (remaining : ℚ) (c : EntryCand) : Option (Position × ℚ) :=
  (entryPos rp tp blocked snaps equity opens remaining c).map
    (fun pos => (pos, pos.qty * pos.entry))

/-- Applying one entry candidate to the loop state `(open set, remaining
budget)`: an accepted entry is appended and the budget immediately
decremented by its notional, floored at `0`, before the next candidate is
looked at. -/
def entryStep (rp : RiskParams) (tp : TradeParams) (blocked : List String)
    (snaps : SymKey → Option Snapshot) (equity : ℚ)
    (st : List (SymKey × Position) × ℚ) (c : EntryCand) : List (SymKey × Position) × ℚ :=
  match entryDecision rp tp blocked snaps equity st.1 st.2 c with
  | none => st
  | some pn => (st.1 ++ [(c.key, pn.1)], max 0 (st.2 - pn.2))

/-- The whole new-entries loop over the tick's candidates. -/
def entriesLoop (rp : RiskParams) (tp : TradeParams) (blocked : List String)
    (snaps : SymKey → Option Snapshot) (equity : ℚ) (cands : List EntryCand)
    (st : List (SymKey × Position) × ℚ) : List (SymKey × Position) × ℚ :=
  cands.foldl (entryStep rp tp blocked snaps equity) st

/-- Open-position set produced by one full tick: manage the open positions,
recompute the remaining budget from the post-management equity and open set,
then evaluate new entries. -/
def tickPositions (rp : RiskParams) (tp : TradeParams) (blocked : List String)
    (venue : SymKey → VenueTick) (snaps : SymKey → Option Snapshot)
    (cands : List EntryCand) (opens : List (SymKey × Position)) (equity : ℚ) :
    List (SymKey × Position) :=
  let m := manageTick tp venue snaps opens equity
  let remaining := remaining_notional_start m.2 rp.max_position_pct snaps m.1
  (entriesLoop rp tp blocked snaps m.2 cands (m.1, remaining)).1

/-! ### The Brain (`bot/analyzer_v2.py`) -/

/-- Brain working mode. -/
inductive Mode
  | DEFENSIVE
  | NORMAL
  | AGGRESSIVE
deriving DecidableEq

/-- Entry `MODE_CONFIGS[mode]["risk_per_trade"]`. -/
def mode_risk_per_trade : Mode → ℚ
  | .DEFENSIVE => 3 / 1000
  | .NORMAL => 5 / 1000
  | .AGGRESSIVE => 8 / 1000

/-- Entry `MODE_CONFIGS[mode]["max_portfolio_exposure"]`. -/
def mode_max_portfolio_exposure : Mode → ℚ
  | .DEFENSIVE => 30 / 100
  | .NORMAL => 60 / 100
  | .AGGRESSIVE => 80 / 100

/-- Entry `MODE_CONFIGS[mode]["trail_atr_k"]`. -/
def mode_trail_atr_k : Mode → ℚ
  | .DEFENSIVE => 1
  | .NORMAL => 12 / 10
  | .AGGRESSIVE => 1

/-- Module-level constants of `analyzer_v2.py`. -/
def MAX_NOTIONAL_PCT_HARD_DEFAULT : ℚ := 20 / 100

def ATR_K_SL : ℚ := 15 / 10

def R1_R : ℚ := 1

def R2_R : ℚ := 25 / 10

def P1_PCT : ℚ := 1 / 2

def P2_PCT : ℚ := 1 / 2

def BE_AFTER_R : ℚ := 8 / 10

def MAX_BARS_IN_TRADE : ℕ := 48

/-- The `BrainSettings` dataclass. -/
structure BrainSettings where
  mode : Mode
  risk_per_trade : ℚ
  max_portfolio_exposure : ℚ
  max_notional_pct_hard : ℚ
  atr_k_sl : ℚ
  r1_R : ℚ
  r2_R : ℚ
  p1_pct : ℚ
  p2_pct : ℚ
  be_after_R : ℚ
  trail_atr_k : ℚ
  max_bars_in_trade : ℕ
  blocked_symbols : List String
deriving DecidableEq

/-- One row of the `live_trades` query in `_fetch_closed_trades` (the fields
the statistics read).  `closed_at` is an abstract monotone timestamp.
The query filters `realized_pnl is not null and closed_at is not null`, but
the statistics code re-checks both, so the fields stay optional here. -/
structure TradeRow where
  symbol : String
  realized_pnl : Option ℚ
  risk_usd : Option ℚ
  equity_at_entry : Option ℚ
  equity_at_exit : Option ℚ
  closed_at : Option ℕ
deriving DecidableEq, Inhabited

/-- Function `_calc_R`: `pnl / risk_usd`, `None` when the risk is not positive
(`trade.get(...) or 0.0` maps a missing or zero field to `0`). -/
def calc_R (t : TradeRow) : Option ℚ :=
  let risk := t.risk_usd.getD 0
  let pnl := t.realized_pnl.getD 0
  if risk ≤ 0 then none else some (pnl / risk)

/-- Function `_compute_win_and_avgR`: rows with a `None` P&L count in the win-rate
denominator but contribute neither a win nor an R sample; the result is
`(None, None)` when the window is empty or no R samples exist. -/
def compute_win_and_avgR (trades : List TradeRow) : Option ℚ × Option ℚ :=
  if trades = [] then (none, none)
  else
    let wins := (trades.filter fun t =>
      match t.realized_pnl with
      | some pnl => decide (0 < pnl)
      | none => false).length
    let Rs := trades.filterMap fun t =>
      match t.realized_pnl with
      | none => none
      | some _ => calc_R t
    if Rs = [] then (none, none)
    else (some ((wins : ℚ) / (trades.length : ℚ)), some (Rs.sum / (Rs.length : ℚ)))

/-- Stable ascending insertion by `closed_at` (ties keep original order),
matching Python's stable `sorted(..., key=closed_at)`. -/
def insertByClosed (t : TradeRow) : List TradeRow → List TradeRow
  | [] => [t]
  | u :: us =>
    if t.closed_at.getD 0 ≤ u.closed_at.getD 0 then t :: u :: us
    else u :: insertByClosed t us

/-- Stable ascending sort by `closed_at`. -/
def sortByClosed : List TradeRow → List TradeRow
  | [] => []
  | t :: ts => insertByClosed t (sortByClosed ts)

/-- Python `x or y or 0.0` over optional equities (`0` is falsy). -/
def orEquity (a b : Option ℚ) : ℚ :=
  match a with
  | some x => if x = 0 then (match b with | some y => y | none => 0) else x
  | none => match b with | some y => y | none => 0

/-- Function `_compute_equity_change_pct`: order the rows with a close timestamp from
oldest to newest, then compare the first row's entry equity (falling back to
its exit equity) against the last row's exit equity. -/
def compute_equity_change_pct (trades : List TradeRow) : Option ℚ :=
  if trades = [] then none
  else
    let ordered := sortByClosed (trades.filter fun t => t.closed_at.isSome)
    if ordered.length < 2 then none
    else
      let first := ordered.headD default
      let last := ordered.getLastD default
      let eq_start := orEquity first.equity_at_entry first.equity_at_exit
      let eq_end := orEquity last.equity_at_exit none
      if eq_start ≤ 0 then none
      else if eq_end ≤ 0 then none
      else some ((eq_end - eq_start) / eq_start)

/-- Mode selection (`analyzer_v2.py` lines 311-340): statistics on the
50 most recent closed trades, `None` guarded to `0`, then the threshold rule
with DEFENSIVE checked first. -/
def brainMode (all_trades : List TradeRow) : Mode :=
  let recent_trades := all_trades.take 50
  let wa := compute_win_and_avgR recent_trades
  let avgR50 := wa.2.getD 0
  let pnl50_pct := (compute_equity_change_pct recent_trades).getD 0
  if pnl50_pct ≤ -(10 / 100) ∨ avgR50 ≤ -(25 / 100) then Mode.DEFENSIVE
  else if 10 / 100 ≤ pnl50_pct ∧ 7 / 10 ≤ avgR50 then Mode.AGGRESSIVE
  else Mode.NORMAL

/-- How a `get_brain_settings` call can fail to return.  `dbError`:
`_fetch_closed_trades` raised (its `psycopg.connect` is not wrapped in a
`try`).  `typeError`: the final `return BrainSettings(...)` at
`analyzer_v2.py` lines 405-420 passes the keyword argument `p2_PCT`, which
is not a field of the `BrainSettings` dataclass, so Python raises
`TypeError: unexpected keyword argument` before anything is returned. -/
inductive BrainFailure
  | dbError
  | typeError
deriving DecidableEq

/-- The external reads of one `get_brain_settings` call: whether
`DATABASE_URL` is set, whether the closed-trades query succeeded, its rows
(most recent first, at most 200), and the blocked set that
`_fetch_blocked_symbols` reports for this call. -/
structure BrainEnv where
  dsn : Bool
  fetch_ok : Bool
  closed_trades : List TradeRow
  blocked_fetch : List String
deriving DecidableEq

/-- The NORMAL-mode default `BrainSettings` returned on the no-DSN and
fewer-than-10-samples paths. -/
def defaultBrainSettings (blocked : List String) : BrainSettings :=
  { mode := Mode.NORMAL
    risk_per_trade := mode_risk_per_trade Mode.NORMAL
    max_portfolio_exposure := mode_max_portfolio_exposure Mode.NORMAL
    max_notional_pct_hard := MAX_NOTIONAL_PCT_HARD_DEFAULT
    atr_k_sl := ATR_K_SL
    r1_R := R1_R
    r2_R := R2_R
    p1_pct := P1_PCT
    p2_pct := P2_PCT
    be_after_R := BE_AFTER_R
    trail_atr_k := mode_trail_atr_k Mode.NORMAL
    max_bars_in_trade := MAX_BARS_IN_TRADE
    blocked_symbols := blocked }

/-- Function `get_brain_settings` as observed by its caller.  With no DSN or with
fewer than 10 closed trades it returns NORMAL defaults (the latter with the
currently stored blocked set).  With 10 or more closed trades the mode, the
per-symbol statistics and the block markings are computed, but the final
`return BrainSettings(..., p2_PCT=P2_PCT, ...)` raises `TypeError` (see
`BrainFailure.typeError`), so this branch never returns a value. -/
def get_brain_settings (env : BrainEnv) : Except BrainFailure BrainSettings :=
  if !env.dsn then Except.ok (defaultBrainSettings [])
  else if !env.fetch_ok then Except.error BrainFailure.dbError
  else if env.closed_trades.length < 10 then
    Except.ok (defaultBrainSettings env.blocked_fetch)
  else Except.error BrainFailure.typeError

/-- The shared parameters the tick loop consumes: the `RiskManager` and
`TradeManager` fields plus `blocked_symbols` and `max_notional_pct_hard`
(`run_live_week.py` lines 822-835). -/
structure SharedParams where
  risk_per_trade : ℚ
  max_position_pct : ℚ
  atr_k_sl : ℚ
  r1_R : ℚ
  r2_R : ℚ
  p1_pct : ℚ
  p2_pct : ℚ
  be_after_R : ℚ
  trail_atr_k : ℚ
  max_bars_in_trade : ℕ
  blocked_symbols : List String
  max_notional_pct_hard : ℚ
deriving DecidableEq

/-- Wholesale application of a returned `BrainSettings` to the shared
parameters. -/
def applyBrainSettings (bs : BrainSettings) : SharedParams :=
  { risk_per_trade := bs.risk_per_trade
    max_position_pct := bs.max_portfolio_exposure
    atr_k_sl := bs.atr_k_sl
    r1_R := bs.r1_R
    r2_R := bs.r2_R
    p1_pct := bs.p1_pct
    p2_pct := bs.p2_pct
    be_after_R := bs.be_after_R
    trail_atr_k := bs.trail_atr_k
    max_bars_in_trade := bs.max_bars_in_trade
    blocked_symbols := bs.blocked_symbols
    max_notional_pct_hard := bs.max_notional_pct_hard }

/-- One Brain refresh as performed by the tick loop (`run_live_week.py`
lines 813-844): the whole block sits in a `try/except`, so a raising
`get_brain_settings` leaves every shared parameter as it was; a returned
`BrainSettings` replaces them wholesale. -/
def brainRefresh (prev : SharedParams) (env : BrainEnv) : SharedParams :=
  match get_brain_settings env with
  | Except.error _ => prev
  | Except.ok bs => applyBrainSettings bs

/-! ### Concrete instances used to exercise the model -/

/-- The static default trade parameters (`analyzer_v2.py` module constants,
NORMAL-mode trailing multiplier). -/
def tmDefault : TradeParams := ⟨15 / 10, 1, 25 / 10, 1 / 2, 1 / 2, 8 / 10, 12 / 10, 48⟩

/-- A long position: entry 100, stop 90, TP1 105, TP2 115, quantity 1, no
partial done yet. -/
def c2Pos : Position := ⟨Side.long, 100, 90, 105, 115, 1, 10, 0, false, false, false, 0⟩

/-- A venue where every exit order fails (no order id returned) and no
market minimum is known. -/
def c2Venue : VenueTick := ⟨true, 0, 0, some 1, none, none, none, false, false, false, false⟩

/-- A long position with TP1 already done, TP2 at 110, quantity 1. -/
def c4Pos : Position := ⟨Side.long, 100, 90, 105, 110, 1, 10, 0, true, false, false, 0⟩

/-- A venue whose TP2 close succeeds and reports a live quantity of `1/2`
(half the stored quantity), with no known market minimum. -/
def c4Venue : VenueTick := ⟨true, 0, 0, none, some (1 / 2), none, none, false, true, false, false⟩

/-- A venue whose stop-loss close succeeds with the live quantity matching
the stored one. -/
def c4SlVenue : VenueTick := ⟨true, 0, 0, none, none, some 1, none, false, false, true, false⟩

/-- A long position with remaining quantity 1 whose venue reports a live
quantity of 10 at TP1 (the venue holds more than the bot recorded). -/
def c6Pos : Position := ⟨Side.long, 100, 90, 105, 115, 1, 10, 0, false, false, false, 0⟩

/-- Venue for the TP1 resynchronization: TP1 order succeeds, live quantity
10. -/
def c6Venue : VenueTick := ⟨true, 0, 0, some 10, none, none, none, true, false, false, false⟩

/-- A short position at its bars limit: entry 100, stop 130, TP1 80,
TP2 60, quantity 2, 47 bars elapsed, price never reached TP1 or the stop. -/
def c8Pos : Position := ⟨Side.short, 100, 130, 80, 60, 2, 30, 47, false, false, false, 0⟩

/-- Venue for the time exit: the TIME close order succeeds, live quantity
unknown (falls back to the stored quantity). -/
def c8Venue : VenueTick := ⟨true, 0, 0, none, none, none, none, false, false, false, true⟩

/-- Upper bound for the stored quantity after one tick: the previous stored
quantity or the largest live venue quantity observed by any of the tick's
resynchronizing exit stages. -/
def liveCap (p : Position) (v : VenueTick) : ℚ :=
  max p.qty
    (max (max 0 (v.liveTP1.getD 0))
      (max (max 0 (v.liveTP2.getD 0))
        (max (max 0 (v.liveSL.getD 0)) (max 0 (v.liveTIME.getD 0)))))

/-- Close price of an optional snapshot (`0` when no snapshot exists; used
only to state the exposure sum, whose hypotheses require the snapshot to
exist). -/
def snapClose : Option Snapshot → ℚ
  | none => 0
  | some sn => sn.close

/-- NORMAL-mode risk parameters with the default hard cap. -/
def rpDefault : RiskParams := ⟨5 / 1000, 6 / 10, 2 / 10⟩

/-- A snapshot map holding one long signal for `("bybit", "AAA/USDT")`:
close 10, ATR `2/3`. -/
def c7Snaps : SymKey → Option Snapshot := fun k =>
  if k = ("bybit", "AAA/USDT") then some ⟨10, some (2 / 3), true, false⟩ else none

/-- An entry candidate whose venue minimum quantity (2) is far above what
the remaining budget (5) can buy at price 10. -/
def c7Cand : EntryCand := ⟨("bybit", "AAA/USDT"), 0, false, ⟨1, some 2, none, none⟩, true⟩

/-- The position and notional that `entryDecision` produces for `c7Cand`
under `rpDefault` / `tmDefault` with equity 1000 and remaining budget 5. -/
def c9Pn : Position × ℚ :=
  (⟨Side.long, 10, 9, 11, 25 / 2, 2, 1, 0, false, false, false, 0⟩, 20)

/-- A winning closed trade: P&L `+100` on risk `100` (`R = 1`). -/
def winRow (ts : ℕ) : TradeRow := ⟨"AAA/USDT", some 100, some 100, some 1000, some 1000, some ts⟩

/-- A losing closed trade: P&L `-75` on risk `100` (`R = -0.75`). -/
def lossRow (ts : ℕ) : TradeRow := ⟨"AAA/USDT", some (-75), some 100, some 1000, some 1000, some ts⟩

/-- The C1 scenario window, most recent first as the ledger query returns
it: 10 closed trades, 2 winners and 8 losers (win rate 20%, average R
`= (2·1 - 8·0.75)/10 = -0.4`), equity 1000 at the start of the window and
880 at its end (equity change `-12%`). -/
def c1Trades : List TradeRow :=
  [⟨"AAA/USDT", some (-75), some 100, some 1000, some 880, some 10⟩,
    lossRow 9, winRow 8, lossRow 7, lossRow 6, lossRow 5, winRow 4, lossRow 3, lossRow 2,
    ⟨"AAA/USDT", some (-75), some 100, some 1000, some 990, some 1⟩]

/-- Shared parameters as a previous DEFENSIVE-mode Brain cycle would have
left them (risk 0.3%, exposure 30%, one blocked symbol). -/
def c3Prev : SharedParams :=
  ⟨3 / 1000, 30 / 100, 15 / 10, 1, 25 / 10, 1 / 2, 1 / 2, 8 / 10, 1, 48, ["XRP/USDT"], 2 / 10⟩

/-! ### Basic lemmas about the quantity helpers -/

theorem round_step_nonneg (x s : ℚ) (hx : 0 ≤ x) : 0 ≤ round_step x s := by
  unfold round_step
  split
  · exact hx
  · rename_i hs
    push_neg at hs
    exact mul_nonneg (by exact_mod_cast Int.floor_nonneg.2 (div_nonneg hx hs.le)) hs.le

theorem round_step_le (x s : ℚ) : round_step x s ≤ x := by
  unfold round_step
  split
  · exact le_rfl
  · rename_i hs
    push_neg at hs
    have h1 : (⌊x / s⌋ : ℚ) ≤ x / s := Int.floor_le _
    have h2 : (⌊x / s⌋ : ℚ) * s ≤ (x / s) * s := mul_le_mul_of_nonneg_right h1 hs.le
    have h3 : x / s * s = x := div_mul_cancel₀ x (ne_of_gt hs)
    rw [h3] at h2
    exact h2

theorem rounded_qty_nonneg (step qty : ℚ) (hq : 0 ≤ qty) : 0 ≤ rounded_qty step qty := by
  unfold rounded_qty
  split
  · exact round_step_nonneg _ _ hq
  · exact hq

theorem rounded_qty_le (step qty : ℚ) : rounded_qty step qty ≤ qty := by
  unfold rounded_qty
  split
  · exact round_step_le _ _
  · exact le_rfl

theorem normalize_position_qty_nonneg (step m q : ℚ) : 0 ≤ normalize_position_qty step m q := by
  unfold normalize_position_qty
  split
  · exact le_rfl
  · rename_i hq
    push_neg at hq
    split
    · exact le_rfl
    · exact rounded_qty_nonneg _ _ hq.le

theorem normalize_position_qty_le (step m q : ℚ) (hq : 0 ≤ q) :
    normalize_position_qty step m q ≤ q := by
  unfold normalize_position_qty
  split
  · exact hq
  · split
    · exact hq
    · exact rounded_qty_le _ _

theorem compute_close_qty_snd_bound (r f : ℚ) (l? : Option ℚ) (B : ℚ)
    (hf0 : 0 ≤ f) (hfB : f ≤ B) (hl : max 0 (l?.getD 0) ≤ B) :
    0 ≤ (compute_close_qty r f l?).2 ∧ (compute_close_qty r f l?).2 ≤ B := by
  have hval : (0 : ℚ) ≤ max (l?.getD f) 0 ∧ max (l?.getD f) 0 ≤ B := by
    refine ⟨le_max_right _ _, ?_⟩
    cases l? with
    | none => simpa [max_eq_left hf0] using hfB
    | some l =>
      have h2 : max (0 : ℚ) l ≤ B := by simpa using hl
      simpa [max_comm] using h2
  unfold compute_close_qty
  split
  · exact ⟨hf0, hfB⟩
  · split
    · exact hval
    · split
      · exact hval
      · exact hval

/-! ### Stop updates: only the stop and the break-even flag change, and the
stop only tightens -/

theorem applyTrailing_fields (tp : TradeParams) (price : ℚ) (atr? : Option ℚ) (p : Position) :
    (applyTrailing tp price atr? p).side = p.side ∧
    (applyTrailing tp price atr? p).entry = p.entry ∧
    (applyTrailing tp price atr? p).tp1 = p.tp1 ∧
    (applyTrailing tp price atr? p).tp2 = p.tp2 ∧
    (applyTrailing tp price atr? p).qty = p.qty ∧
    (applyTrailing tp price atr? p).R = p.R ∧
    (applyTrailing tp price atr? p).bars = p.bars ∧
    (applyTrailing tp price atr? p).tp1_done = p.tp1_done ∧
    (applyTrailing tp price atr? p).tp2_done = p.tp2_done ∧
    (applyTrailing tp price atr? p).moved_to_be = p.moved_to_be ∧
    (applyTrailing tp price atr? p).realized_pnl = p.realized_pnl := by
  unfold applyTrailing
  cases atr? with
  | none => simp
  | some a =>
    by_cases ha : a = 0
    · simp [ha]
    · cases hs : p.side <;> simp [ha, hs]

theorem applyBreakEven_fields (tp : TradeParams) (price : ℚ) (atr? : Option ℚ) (p : Position) :
    (applyBreakEven tp price atr? p).side = p.side ∧
    (applyBreakEven tp price atr? p).entry = p.entry ∧
    (applyBreakEven tp price atr? p).tp1 = p.tp1 ∧
    (applyBreakEven tp price atr? p).tp2 = p.tp2 ∧
    (applyBreakEven tp price atr? p).qty = p.qty ∧
    (applyBreakEven tp price atr? p).R = p.R ∧
    (applyBreakEven tp price atr? p).bars = p.bars ∧
    (applyBreakEven tp price atr? p).tp1_done = p.tp1_done ∧
    (applyBreakEven tp price atr? p).tp2_done = p.tp2_done ∧
    (applyBreakEven tp price atr? p).realized_pnl = p.realized_pnl := by
  unfold applyBreakEven
  cases atr? with
  | none => simp
  | some a =>
    by_cases hmb : p.moved_to_be
    · simp [hmb]
    · by_cases ha : a = 0
      · simp [hmb, ha]
      · cases hs : p.side with
        | long =>
          by_cases hc : p.entry + tp.be_after_R * p.R ≤ price <;> simp [hmb, ha, hs, hc]
        | short =>
          by_cases hc : price ≤ p.entry - tp.be_after_R * p.R <;> simp [hmb, ha, hs, hc]

theorem applyTrailing_sl_long (tp : TradeParams) (price : ℚ) (atr? : Option ℚ) (p : Position)
    (h : p.side = Side.long) : p.sl ≤ (applyTrailing tp price atr? p).sl := by
  unfold applyTrailing
  cases atr? with
  | none => exact le_rfl
  | some a =>
    by_cases ha : a = 0
    · simp [ha]
    · simp [ha, h]

theorem applyTrailing_sl_short (tp : TradeParams) (price : ℚ) (atr? : Option ℚ) (p : Position)
    (h : p.side = Side.short) : (applyTrailing tp price atr? p).sl ≤ p.sl := by
  unfold applyTrailing
  cases atr? with
  | none => exact le_rfl
  | some a =>
    by_cases ha : a = 0
    · simp [ha]
    · simp [ha, h]

theorem applyBreakEven_sl_long (tp : TradeParams) (price : ℚ) (atr? : Option ℚ) (p : Position)
    (h : p.side = Side.long) : p.sl ≤ (applyBreakEven tp price atr? p).sl := by
  unfold applyBreakEven
  cases atr? with
  | none => exact le_rfl
  | some a =>
    rw [h]
    by_cases hmb : p.moved_to_be
    · simp [hmb]
    · by_cases ha : a = 0
      · simp [hmb, ha]
      · by_cases hc : p.entry + tp.be_after_R * p.R ≤ price
        · simp [hmb, ha, hc]
        · simp [hmb, ha, hc]

theorem applyBreakEven_sl_short (tp : TradeParams) (price : ℚ) (atr? : Option ℚ) (p : Position)
    (h : p.side = Side.short) : (applyBreakEven tp price atr? p).sl ≤ p.sl := by
  unfold applyBreakEven
  cases atr? with
  | none => exact le_rfl
  | some a =>
    rw [h]
    by_cases hmb : p.moved_to_be
    · simp [hmb]
    · by_cases ha : a = 0
      · simp [hmb, ha]
      · by_cases hc : price ≤ p.entry - tp.be_after_R * p.R
        · simp [hmb, ha, hc]
        · simp [hmb, ha, hc]

theorem stopUpdate_sl_long (tp : TradeParams) (price : ℚ) (atr? : Option ℚ) (p : Position)
    (h : p.side = Side.long) : p.sl ≤ (stopUpdate tp price atr? p).sl := by
  unfold stopUpdate
  exact le_trans (applyTrailing_sl_long tp price atr? p h)
    (applyBreakEven_sl_long tp price atr? _ ((applyTrailing_fields tp price atr? p).1.trans h))

theorem stopUpdate_sl_short (tp : TradeParams) (price : ℚ) (atr? : Option ℚ) (p : Position)
    (h : p.side = Side.short) : (stopUpdate tp price atr? p).sl ≤ p.sl := by
  unfold stopUpdate
  exact le_trans
    (applyBreakEven_sl_short tp price atr? _ ((applyTrailing_fields tp price atr? p).1.trans h))
    (applyTrailing_sl_short tp price atr? p h)

theorem stopUpdate_fields (tp : TradeParams) (price : ℚ) (atr? : Option ℚ) (p : Position) :
    (stopUpdate tp price atr? p).side = p.side ∧
    (stopUpdate tp price atr? p).entry = p.entry ∧
    (stopUpdate tp price atr? p).tp1 = p.tp1 ∧
    (stopUpdate tp price atr? p).tp2 = p.tp2 ∧
    (stopUpdate tp price atr? p).qty = p.qty ∧
    (stopUpdate tp price atr? p).R = p.R ∧
    (stopUpdate tp price atr? p).bars = p.bars ∧
    (stopUpdate tp price atr? p).tp1_done = p.tp1_done ∧
    (stopUpdate tp price atr? p).tp2_done = p.tp2_done ∧
    (stopUpdate tp price atr? p).realized_pnl = p.realized_pnl := by
  unfold stopUpdate
  obtain ⟨b1, b2, b3, b4, b5, b6, b7, b8, b9, b10⟩ :=
    applyBreakEven_fields tp price atr? (applyTrailing tp price atr? p)
  obtain ⟨a1, a2, a3, a4, a5, a6, a7, a8, a9, _, a11⟩ := applyTrailing_fields tp price atr? p
  exact ⟨b1.trans a1, b2.trans a2, b3.trans a3, b4.trans a4, b5.trans a5, b6.trans a6,
    b7.trans a7, b8.trans a8, b9.trans a9, b10.trans a11⟩

/-! ### Per-stage stop preservation: no exit stage ever writes the stop -/

theorem tp1Stage_pos_sl (tp : TradeParams) (v : VenueTick) (price q0 : ℚ) (s : TickSt) :
    (tp1Stage tp v price q0 s).pos.sl = s.pos.sl := by
  simp only [tp1Stage]
  repeat' split
  all_goals rfl

theorem tp2Stage_pos_sl (tp : TradeParams) (v : VenueTick) (price : ℚ) (s : TickSt) :
    (tp2Stage tp v price s).pos.sl = s.pos.sl := by
  simp only [tp2Stage]
  repeat' split
  all_goals rfl

theorem slStage_pos_sl (v : VenueTick) (price : ℚ) (s : TickSt) :
    (slStage v price s).pos.sl = s.pos.sl := by
  simp only [slStage]
  repeat' split
  all_goals rfl

theorem timeStage_pos_sl (tp : TradeParams) (v : VenueTick) (price : ℚ) (s : TickSt) :
    (timeStage tp v price s).pos.sl = s.pos.sl := by
  simp only [timeStage]
  repeat' split
  all_goals rfl

theorem manageOne_pos_sl (tp : TradeParams) (v : VenueTick) (price : ℚ) (atr? : Option ℚ)
    (p : Position) (eq : ℚ) :
    (manageOne tp v price atr? p eq).pos.sl = (stopUpdate tp price atr? p).sl := by
  simp only [manageOne]
  rw [timeStage_pos_sl, slStage_pos_sl, tp2Stage_pos_sl, tp1Stage_pos_sl]

/-! ### Per-stage behaviour when the venue returns no order id -/

theorem isDust_of_nonpos_min (live m : ℚ) (hm : m ≤ 0) : isDust live m = false := by
  unfold isDust
  rw [decide_eq_false (not_lt.mpr hm)]
  simp

theorem tp1Stage_order_failed (tp : TradeParams) (v : VenueTick) (price q0 : ℚ) (s : TickSt)
    (hok : v.okTP1 = false) (hmin : v.min_amount ≤ 0) :
    tp1Stage tp v price q0 s = s := by
  have hd : ∀ l, isDust l v.min_amount = false := fun l => isDust_of_nonpos_min l v.min_amount hmin
  simp only [tp1Stage, hd, hok, Bool.and_false, Bool.false_eq_true, if_false]
  repeat' split
  all_goals rfl

theorem tp2Stage_order_failed (tp : TradeParams) (v : VenueTick) (price : ℚ) (s : TickSt)
    (hok : v.okTP2 = false) (hmin : v.min_amount ≤ 0) :
    tp2Stage tp v price s = s := by
  have hd : ∀ l, isDust l v.min_amount = false := fun l => isDust_of_nonpos_min l v.min_amount hmin
  simp only [tp2Stage, hd, hok, Bool.and_false, Bool.false_eq_true, if_false]
  repeat' split
  all_goals rfl

theorem slStage_order_failed (v : VenueTick) (price : ℚ) (s : TickSt)
    (hok : v.okSL = false) (hmin : v.min_amount ≤ 0) :
    slStage v price s = s := by
  have hd : ∀ l, isDust l v.min_amount = false := fun l => isDust_of_nonpos_min l v.min_amount hmin
  simp only [slStage, hd, hok, Bool.false_eq_true, if_false]
  repeat' split
  all_goals rfl

theorem timeStage_order_failed (tp : TradeParams) (v : VenueTick) (price : ℚ) (s : TickSt)
    (hok : v.okTIME = false) (hmin : v.min_amount ≤ 0) :
    timeStage tp v price s =
      if s.skip then s else { s with pos := { s.pos with bars := s.pos.bars + 1 } } := by
  have hd : ∀ l, isDust l v.min_amount = false := fun l => isDust_of_nonpos_min l v.min_amount hmin
  simp only [timeStage, hd, hok, Bool.false_eq_true, if_false]
  repeat' split
  all_goals rfl

/-! ### Claim C5 -/

/-- C5: for every tick and every position, the stored stop of a long
position never decreases and the stored stop of a short position never
increases: trailing takes `max` with the previous stop for long and `min`
for short, break-even likewise, and no other part of the per-tick update
writes the stop. -/
theorem c5_stop_monotone (tp : TradeParams) (v : VenueTick) (price : ℚ) (atr? : Option ℚ)
    (p : Position) (eq : ℚ) :
    (p.side = Side.long → p.sl ≤ (manageOne tp v price atr? p eq).pos.sl) ∧
    (p.side = Side.short → (manageOne tp v price atr? p eq).pos.sl ≤ p.sl) := by
  constructor
  · intro h
    rw [manageOne_pos_sl]
    exact stopUpdate_sl_long tp price atr? p h
  · intro h
    rw [manageOne_pos_sl]
    exact stopUpdate_sl_short tp price atr? p h

/-- Witness for C5 at a concrete long position. -/
theorem c5_stop_monotone_w :
    c2Pos.sl ≤ (manageOne tmDefault c2Venue 106 none c2Pos 500).pos.sl :=
  (c5_stop_monotone tmDefault c2Venue 106 none c2Pos 500).1 rfl

/-! ### Claim C2 -/

/-- C2: when every exit order of the tick returns no order id (and no dust
close fires — no venue minimum is known), the position's stored quantity,
its TP flags, its accumulated realized P&L and the portfolio equity are all
unchanged by the tick, and the position stays in the open set
(`closed = false`); the exit conditions read only these unchanged fields
(plus the monotone stop), so they fire again on the next qualifying tick. -/
theorem c2_exit_order_failure_state_unchanged (tp : TradeParams) (v : VenueTick) (price : ℚ)
    (atr? : Option ℚ) (p : Position) (eq : ℚ)
    (h1 : v.okTP1 = false) (h2 : v.okTP2 = false) (h3 : v.okSL = false) (h4 : v.okTIME = false)
    (hmin : v.min_amount ≤ 0) :
    (manageOne tp v price atr? p eq).pos.qty = p.qty ∧
    (manageOne tp v price atr? p eq).pos.tp1_done = p.tp1_done ∧
    (manageOne tp v price atr? p eq).pos.tp2_done = p.tp2_done ∧
    (manageOne tp v price atr? p eq).pos.realized_pnl = p.realized_pnl ∧
    (manageOne tp v price atr? p eq).equity = eq ∧
    (manageOne tp v price atr? p eq).closed = false := by
  obtain ⟨f1, f2, f3, f4, f5, f6, f7, f8, f9, f10⟩ := stopUpdate_fields tp price atr? p
  simp only [manageOne]
  rw [tp1Stage_order_failed tp v price _ _ h1 hmin,
    tp2Stage_order_failed tp v price _ h2 hmin,
    slStage_order_failed v price _ h3 hmin,
    timeStage_order_failed tp v price _ h4 hmin]
  simp
  exact ⟨f5, f8, f9, f10⟩

/-- Witness for C2: at a concrete tick where the TP1 condition fires but
the exit order fails, quantity, flags, realized P&L and equity keep their
previous values and the position is not closed. -/
theorem c2_exit_order_failure_state_unchanged_w :
    (manageOne tmDefault c2Venue 106 none c2Pos 500).pos.qty = c2Pos.qty ∧
    (manageOne tmDefault c2Venue 106 none c2Pos 500).equity = 500 ∧
    (manageOne tmDefault c2Venue 106 none c2Pos 500).closed = false := by
  have h := c2_exit_order_failure_state_unchanged tmDefault c2Venue 106 none c2Pos 500
    rfl rfl rfl rfl (le_refl 0)
  exact ⟨h.1, h.2.2.2.2.1, h.2.2.2.2.2⟩

/-! ### Claim C4 -/

/-- Counterexample to C4: a TP2 fill that brings the stored remaining
quantity to 0 does not remove the position: at price 110 the TP2 close of
`c4Pos` succeeds (live quantity `1/2`, requested `1/2`), the stored
quantity becomes 0, yet the key stays in the open set with quantity 0. -/
theorem c4_tp2_zero_qty_stays_cex :
    (manageOne tmDefault c4Venue 110 none c4Pos 1000).pos.qty = 0 ∧
    (manageOne tmDefault c4Venue 110 none c4Pos 1000).pos.tp2_done = true ∧
    (manageOne tmDefault c4Venue 110 none c4Pos 1000).closed = false ∧
    (manageTick tmDefault (fun _ => c4Venue) (fun _ => some ⟨110, none, false, false⟩)
        [(("bybit", "BTC/USDT"), c4Pos)] 1000).1.map Prod.fst = [("bybit", "BTC/USDT")] := by
  with_unfolding_all decide

theorem tp1Stage_closed_exits (tp : TradeParams) (v : VenueTick) (price q0 : ℚ) (s : TickSt)
    (h : s.closed = true → s.exits ≠ []) :
    (tp1Stage tp v price q0 s).closed = true → (tp1Stage tp v price q0 s).exits ≠ [] := by
  simp only [tp1Stage]
  repeat' split
  all_goals first
    | exact h
    | (intro _; simp)

theorem tp2Stage_closed_exits (tp : TradeParams) (v : VenueTick) (price : ℚ) (s : TickSt)
    (h : s.closed = true → s.exits ≠ []) :
    (tp2Stage tp v price s).closed = true → (tp2Stage tp v price s).exits ≠ [] := by
  simp only [tp2Stage]
  repeat' split
  all_goals first
    | exact h
    | (intro _; simp)

theorem slStage_closed_exits (v : VenueTick) (price : ℚ) (s : TickSt)
    (h : s.closed = true → s.exits ≠ []) :
    (slStage v price s).closed = true → (slStage v price s).exits ≠ [] := by
  simp only [slStage]
  repeat' split
  all_goals first
    | exact h
    | (intro _; simp)

theorem timeStage_closed_exits (tp : TradeParams) (v : VenueTick) (price : ℚ) (s : TickSt)
    (h : s.closed = true → s.exits ≠ []) :
    (timeStage tp v price s).closed = true → (timeStage tp v price s).exits ≠ [] := by
  simp only [timeStage]
  repeat' split
  all_goals first
    | exact h
    | (intro _; simp)

/-- C4 amended: a position is removed from the open set in the same tick
only together with a recorded ledger close (a DUST, SL or TIME exit
record); a TP1 or TP2 fill never removes the position by itself, even when
it brings the stored remaining quantity to 0 — the entry then stays in the
open set with quantity 0 (see the counterexample). -/
theorem c4_removal_only_with_close (tp : TradeParams) (v : VenueTick) (price : ℚ)
    (atr? : Option ℚ) (p : Position) (eq : ℚ)
    (h : (manageOne tp v price atr? p eq).closed = true) :
    (manageOne tp v price atr? p eq).exits ≠ [] := by
  revert h
  simp only [manageOne]
  exact timeStage_closed_exits _ _ _ _
    (slStage_closed_exits _ _ _
      (tp2Stage_closed_exits _ _ _ _
        (tp1Stage_closed_exits _ _ _ _ _ (fun h0 => absurd h0 (by simp)))))

/-- Witness for C4's amended claim: a concrete successful stop-loss close
both removes the position and records an SL exit. -/
theorem c4_removal_only_with_close_w :
    (manageOne tmDefault c4SlVenue 80 none c2Pos 500).exits ≠ [] :=
  c4_removal_only_with_close tmDefault c4SlVenue 80 none c2Pos 500
    (by with_unfolding_all rfl)

/-! ### Claim C6 -/

theorem normalize_sub_bound (step m c live B : ℚ) (hc : 0 < c) (hl0 : 0 ≤ live) (hlB : live ≤ B) :
    0 ≤ normalize_position_qty step m (max 0 (live - c)) ∧
    normalize_position_qty step m (max 0 (live - c)) ≤ B := by
  have hB0 : 0 ≤ B := le_trans hl0 hlB
  refine ⟨normalize_position_qty_nonneg _ _ _, ?_⟩
  have h1 : normalize_position_qty step m (max 0 (live - c)) ≤ max 0 (live - c) :=
    normalize_position_qty_le _ _ _ (le_max_left _ _)
  have h2 : max 0 (live - c) ≤ B := max_le hB0 (by linarith)
  exact le_trans h1 h2

theorem tp1Stage_qty_bound (tp : TradeParams) (v : VenueTick) (price q0 : ℚ) (s : TickSt)
    (B : ℚ) (hq : 0 ≤ s.pos.qty) (hB : s.pos.qty ≤ B)
    (hl : max 0 (v.liveTP1.getD 0) ≤ B) :
    0 ≤ (tp1Stage tp v price q0 s).pos.qty ∧ (tp1Stage tp v price q0 s).pos.qty ≤ B := by
  have hB0 : 0 ≤ B := le_trans hq hB
  have hcc := compute_close_qty_snd_bound (q0 * tp.p1_pct) s.pos.qty v.liveTP1 B hq hB hl
  simp only [tp1Stage]
  split
  · exact ⟨hq, hB⟩
  · split
    · split
      · exact ⟨le_rfl, hB0⟩
      · split
        · exact ⟨hq, hB⟩
        · split
          · rename_i hcq _
            push_neg at hcq
            exact normalize_sub_bound v.step v.min_amount _ _ B hcq hcc.1 hcc.2
          · exact ⟨hq, hB⟩
    · exact ⟨hq, hB⟩

theorem tp2Stage_qty_bound (tp : TradeParams) (v : VenueTick) (price : ℚ) (s : TickSt)
    (B : ℚ) (hq : 0 ≤ s.pos.qty) (hB : s.pos.qty ≤ B)
    (hl : max 0 (v.liveTP2.getD 0) ≤ B) :
    0 ≤ (tp2Stage tp v price s).pos.qty ∧ (tp2Stage tp v price s).pos.qty ≤ B := by
  have hB0 : 0 ≤ B := le_trans hq hB
  have hcc := compute_close_qty_snd_bound (s.pos.qty * tp.p2_pct) s.pos.qty v.liveTP2 B hq hB hl
  simp only [tp2Stage]
  split
  · exact ⟨hq, hB⟩
  · split
    · split
      · exact ⟨le_rfl, hB0⟩
      · split
        · exact ⟨hq, hB⟩
        · split
          · rename_i hcq _
            push_neg at hcq
            exact normalize_sub_bound v.step v.min_amount _ _ B hcq hcc.1 hcc.2
          · exact ⟨hq, hB⟩
    · exact ⟨hq, hB⟩

theorem slStage_qty_bound (v : VenueTick) (price : ℚ) (s : TickSt)
    (B : ℚ) (hq : 0 ≤ s.pos.qty) (hB : s.pos.qty ≤ B)
    (hl : max 0 (v.liveSL.getD 0) ≤ B) :
    0 ≤ (slStage v price s).pos.qty ∧ (slStage v price s).pos.qty ≤ B := by
  have hB0 : 0 ≤ B := le_trans hq hB
  have hcc := compute_close_qty_snd_bound s.pos.qty s.pos.qty v.liveSL B hq hB hl
  simp only [slStage]
  split
  · exact ⟨hq, hB⟩
  · split
    · split
      · exact ⟨le_rfl, hB0⟩
      · split
        · exact ⟨hq, hB⟩
        · split
          · rename_i hcq _
            have hcq0 : (decide ((compute_close_qty s.pos.qty s.pos.qty v.liveSL).1 ≤ 0)
                || !v.connPresent) = false := Bool.eq_false_iff.mpr hcq
            rw [Bool.or_eq_false_iff] at hcq0
            have hcq1 : 0 < (compute_close_qty s.pos.qty s.pos.qty v.liveSL).1 := by
              have := of_decide_eq_false hcq0.1
              push_neg at this
              exact this
            exact normalize_sub_bound v.step v.min_amount _ _ B hcq1 hcc.1 hcc.2
          · exact ⟨hq, hB⟩
    · exact ⟨hq, hB⟩

theorem timeStage_qty_bound (tp : TradeParams) (v : VenueTick) (price : ℚ) (s : TickSt)
    (B : ℚ) (hq : 0 ≤ s.pos.qty) (hB : s.pos.qty ≤ B)
    (hl : max 0 (v.liveTIME.getD 0) ≤ B) :
    0 ≤ (timeStage tp v price s).pos.qty ∧ (timeStage tp v price s).pos.qty ≤ B := by
  have hB0 : 0 ≤ B := le_trans hq hB
  have hcc := compute_close_qty_snd_bound s.pos.qty s.pos.qty v.liveTIME B hq hB hl
  simp only [timeStage]
  split
  · exact ⟨hq, hB⟩
  · split
    · split
      · exact ⟨le_rfl, hB0⟩
      · split
        · exact ⟨hq, hB⟩
        · split
          · rename_i hcq _
            have hcq0 : (decide ((compute_close_qty s.pos.qty s.pos.qty v.liveTIME).1 ≤ 0)
                || !v.connPresent) = false := Bool.eq_false_iff.mpr hcq
            rw [Bool.or_eq_false_iff] at hcq0
            have hcq1 : 0 < (compute_close_qty s.pos.qty s.pos.qty v.liveTIME).1 := by
              have := of_decide_eq_false hcq0.1
              push_neg at this
              exact this
            exact normalize_sub_bound v.step v.min_amount _ _ B hcq1 hcc.1 hcc.2
          · exact ⟨hq, hB⟩
    · exact ⟨hq, hB⟩

/-- Counterexample to C6: the TP1 resynchronization from the live venue
quantity can make the stored quantity larger.  With stored quantity 1 and a
live venue quantity of 10, a successful TP1 close of `1/2` stores
`10 - 1/2 = 19/2 > 1`. -/
theorem c6_live_resync_increases_qty_cex :
    c6Pos.qty = 1 ∧
    (manageOne tmDefault c6Venue 106 none c6Pos 1000).pos.qty = 19 / 2 ∧
    ¬ ((manageOne tmDefault c6Venue 106 none c6Pos 1000).pos.qty ≤ c6Pos.qty) := by
  with_unfolding_all decide

/-- C6 amended: across one tick the stored remaining quantity stays
non-negative, and it never exceeds the maximum of its previous value and
the live venue quantities the tick's exit stages resynchronized from.  In
particular it never increases when every observed live quantity is at most
the stored quantity; a live quantity above the stored one can raise it (see
the counterexample). -/
theorem c6_qty_bounds (tp : TradeParams) (v : VenueTick) (price : ℚ) (atr? : Option ℚ)
    (p : Position) (eq : ℚ) (hq : 0 ≤ p.qty) :
    0 ≤ (manageOne tp v price atr? p eq).pos.qty ∧
    (manageOne tp v price atr? p eq).pos.qty ≤ liveCap p v := by
  have hf := (stopUpdate_fields tp price atr? p).2.2.2.2.1
  have hq0 : 0 ≤ (stopUpdate tp price atr? p).qty := by rw [hf]; exact hq
  have hB0 : (stopUpdate tp price atr? p).qty ≤ liveCap p v := by
    rw [hf]; exact le_max_left _ _
  have l1 : max 0 (v.liveTP1.getD 0) ≤ liveCap p v :=
    le_trans (le_max_left _ _) (le_max_right _ _)
  have l2 : max 0 (v.liveTP2.getD 0) ≤ liveCap p v :=
    le_trans (le_trans (le_max_left _ _) (le_max_right _ _)) (le_max_right _ _)
  have l3 : max 0 (v.liveSL.getD 0) ≤ liveCap p v :=
    le_trans (le_trans (le_trans (le_max_left _ _) (le_max_right _ _)) (le_max_right _ _))
      (le_max_right _ _)
  have l4 : max 0 (v.liveTIME.getD 0) ≤ liveCap p v :=
    le_trans (le_trans (le_trans (le_max_right _ _) (le_max_right _ _)) (le_max_right _ _))
      (le_max_right _ _)
  have b1 := tp1Stage_qty_bound tp v price p.qty
    ⟨stopUpdate tp price atr? p, eq, false, [], [], false⟩ (liveCap p v) hq0 hB0 l1
  have b2 := tp2Stage_qty_bound tp v price
    (tp1Stage tp v price p.qty ⟨stopUpdate tp price atr? p, eq, false, [], [], false⟩)
    (liveCap p v) b1.1 b1.2 l2
  have b3 := slStage_qty_bound v price
    (tp2Stage tp v price
      (tp1Stage tp v price p.qty ⟨stopUpdate tp price atr? p, eq, false, [], [], false⟩))
    (liveCap p v) b2.1 b2.2 l3
  have b4 := timeStage_qty_bound tp v price
    (slStage v price
      (tp2Stage tp v price
        (tp1Stage tp v price p.qty ⟨stopUpdate tp price atr? p, eq, false, [], [], false⟩)))
    (liveCap p v) b3.1 b3.2 l4
  simpa only [manageOne] using b4

/-- Witness for C6's amended claim at the concrete resynchronizing tick. -/
theorem c6_qty_bounds_w :
    0 ≤ (manageOne tmDefault c6Venue 106 none c6Pos 1000).pos.qty ∧
    (manageOne tmDefault c6Venue 106 none c6Pos 1000).pos.qty ≤ liveCap c6Pos c6Venue :=
  c6_qty_bounds tmDefault c6Venue 106 none c6Pos 1000 (by with_unfolding_all decide)

/-! ### Claim C8 -/

theorem tp1Stage_no_trigger (tp : TradeParams) (v : VenueTick) (price q0 : ℚ) (s : TickSt)
    (h : tp1Trigger s.pos price = false) : tp1Stage tp v price q0 s = s := by
  simp only [tp1Stage, h, Bool.false_eq_true, if_false]
  split <;> rfl

theorem tp2Stage_no_trigger (tp : TradeParams) (v : VenueTick) (price : ℚ) (s : TickSt)
    (h : tp2Trigger s.pos price = false) : tp2Stage tp v price s = s := by
  simp only [tp2Stage, h, Bool.false_eq_true, if_false]
  split <;> rfl

theorem slStage_no_trigger (v : VenueTick) (price : ℚ) (s : TickSt)
    (h : slTrigger s.pos price = false) : slStage v price s = s := by
  simp only [slStage, h, Bool.false_eq_true, if_false]
  split <;> rfl

theorem compute_close_qty_self (q : ℚ) (hq : 0 < q) :
    compute_close_qty q q none = (q, q) := by
  unfold compute_close_qty
  rw [if_neg (not_le.mpr hq)]
  simp only [Option.getD_none, max_eq_left hq.le, min_self]
  rw [if_neg (not_le.mpr hq), if_neg (not_le.mpr hq)]

theorem timeStage_success (tp : TradeParams) (v : VenueTick) (price : ℚ) (s : TickSt)
    (hskip : s.skip = false)
    (htrig : timeTrigger tp { s.pos with bars := s.pos.bars + 1 } = true)
    (hlive : v.liveTIME = none)
    (hq : 0 < s.pos.qty)
    (hconn : v.connPresent = true)
    (hok : v.okTIME = true) :
    (timeStage tp v price s).closed = true ∧
    (isDust s.pos.qty v.min_amount = false →
      (timeStage tp v price s).events = s.events ++
        [⟨EventType.TIME, price, s.pos.qty,
          directional_pnl s.pos.side s.pos.entry price s.pos.qty⟩] ∧
      (timeStage tp v price s).exits = s.exits ++ [⟨ExitType.TIME, price⟩]) ∧
    (isDust s.pos.qty v.min_amount = true →
      (timeStage tp v price s).exits = s.exits ++ [⟨ExitType.DUST, price⟩] ∧
      (timeStage tp v price s).pos.qty = 0) := by
  have hcc : compute_close_qty s.pos.qty s.pos.qty v.liveTIME = (s.pos.qty, s.pos.qty) := by
    rw [hlive]
    exact compute_close_qty_self _ hq
  simp only [timeStage, hskip, Bool.false_eq_true, if_false, htrig, if_true, hcc]
  by_cases hd : isDust s.pos.qty v.min_amount = true
  · simp [hd]
  · rw [Bool.not_eq_true] at hd
    simp only [hd, Bool.false_eq_true, if_false]
    rw [if_neg]
    · simp [hok, hd]
    · simp [hconn, not_le.mpr hq]

/-- C8: when a position's bars-elapsed counter reaches
`max_bars_in_trade` with TP2 not completed, and no earlier exit of the tick
fires, the state machine closes the full remaining quantity at the current
price — a TIME close when the quantity is not dust (recorded with a TIME
exit and a trade event whose price is the current price, whose quantity is
the full remaining quantity and whose P&L has whatever sign the price
dictates), a DUST close otherwise — and the position leaves the open set
(`closed = true`) in both cases. -/
theorem c8_time_exit_closes (tp : TradeParams) (v : VenueTick) (price : ℚ) (atr? : Option ℚ)
    (p : Position) (eq : ℚ)
    (htp2 : p.tp2_done = false)
    (hbars : tp.max_bars_in_trade ≤ p.bars + 1)
    (ht1 : tp1Trigger p price = false)
    (ht2 : tp2Trigger p price = false)
    (hsl : slTrigger (stopUpdate tp price atr? p) price = false)
    (hconn : v.connPresent = true)
    (hok : v.okTIME = true)
    (hlive : v.liveTIME = none)
    (hq : 0 < p.qty) :
    (manageOne tp v price atr? p eq).closed = true ∧
    (isDust p.qty v.min_amount = false →
      (manageOne tp v price atr? p eq).events =
        [⟨EventType.TIME, price, p.qty, directional_pnl p.side p.entry price p.qty⟩] ∧
      (manageOne tp v price atr? p eq).exits = [⟨ExitType.TIME, price⟩]) ∧
    (isDust p.qty v.min_amount = true →
      (manageOne tp v price atr? p eq).exits = [⟨ExitType.DUST, price⟩] ∧
      (manageOne tp v price atr? p eq).pos.qty = 0) := by
  obtain ⟨f1, f2, f3, f4, f5, f6, f7, f8, f9, f10⟩ := stopUpdate_fields tp price atr? p
  have ht1' : tp1Trigger (stopUpdate tp price atr? p) price = false := by
    unfold tp1Trigger at ht1 ⊢
    rw [f1, f3, f8]
    exact ht1
  have ht2' : tp2Trigger (stopUpdate tp price atr? p) price = false := by
    unfold tp2Trigger at ht2 ⊢
    rw [f1, f4, f9]
    exact ht2
  have htrig : timeTrigger tp
      { (stopUpdate tp price atr? p) with bars := (stopUpdate tp price atr? p).bars + 1 } = true := by
    unfold timeTrigger
    simp only [f7, f9, htp2]
    simp [hbars]
  have hts := timeStage_success tp v price
    ⟨stopUpdate tp price atr? p, eq, false, [], [], false⟩ rfl htrig hlive
    (by rw [f5]; exact hq) hconn hok
  rw [f5, f1, f2] at hts
  simp only [manageOne]
  rw [tp1Stage_no_trigger tp v price _ _ ht1', tp2Stage_no_trigger tp v price _ ht2',
    slStage_no_trigger v price _ hsl]
  exact hts

/-- Witness for C8: a concrete short position at its bars limit, price
above the entry (negative P&L), is force-closed with a TIME exit. -/
theorem c8_time_exit_closes_w :
    (manageOne tmDefault c8Venue 120 none c8Pos 500).closed = true ∧
    (manageOne tmDefault c8Venue 120 none c8Pos 500).events =
      [⟨EventType.TIME, 120, 2, directional_pnl Side.short 100 120 2⟩] := by
  have h := c8_time_exit_closes tmDefault c8Venue 120 none c8Pos 500 rfl
    (by with_unfolding_all decide) (by with_unfolding_all rfl) (by with_unfolding_all rfl)
    (by with_unfolding_all rfl) rfl rfl rfl (by with_unfolding_all decide)
  exact ⟨h.1, (h.2.1 (by with_unfolding_all rfl)).1⟩

/-! ### Claim C7 -/

/-- Counterexample to C7: with remaining budget 5, price 10 and venue
minimum quantity 2, the step-rounded quantity (0) is below the minimum, the
quantity is raised to 2 with notional `20 > 5`, and the entry is opened at
that size — the raise never consults the remaining budget. -/
theorem c7_min_qty_ignores_budget_cex :
    entry_qty 1000 (5 / 1000) (6 / 10) (2 / 10) 5 10 1 ⟨1, some 2, none, none⟩ = 2 ∧
    (entryDecision rpDefault tmDefault [] c7Snaps 1000 [] 5 c7Cand).map
      (fun pn => (pn.1.qty, pn.2)) = some (2, 20) ∧
    ¬ ((20 : ℚ) ≤ 5) := by
  with_unfolding_all decide

/-- C7 amended: when the step-rounded quantity is below the venue minimum
quantity (and no minimum notional applies), the quantity is raised to the
step-rounded venue minimum unconditionally — the remaining budget is not
consulted, so an entry whose minimum-quantity notional exceeds the
remaining budget is still opened at that size; the budget caps only the
pre-rounding quantity. -/
theorem c7_min_qty_bump_unconditional (equity rpt mpp hard remaining price R step mq : ℚ)
    (bp : Option ℚ)
    (h : round_step (entry_qty_raw equity rpt mpp hard remaining price R bp) step < mq) :
    entry_qty equity rpt mpp hard remaining price R ⟨step, some mq, none, bp⟩ =
      round_step mq step := by
  unfold entry_qty
  simp only [if_pos h]

/-- Witness for C7's amended claim at the counterexample's numbers. -/
theorem c7_min_qty_bump_unconditional_w :
    entry_qty 1000 (5 / 1000) (6 / 10) (2 / 10) 5 10 1 ⟨1, some 2, none, none⟩ =
      round_step 2 1 :=
  c7_min_qty_bump_unconditional 1000 (5 / 1000) (6 / 10) (2 / 10) 5 10 1 1 2 none
    (by with_unfolding_all decide)

/-! ### Claim C9 -/

theorem portfolio_notional_fold (snaps : SymKey → Option Snapshot) :
    ∀ (opens : List (SymKey × Position)), (∀ kp ∈ opens, (snaps kp.1).isSome) → ∀ a : ℚ,
      opens.foldl
        (fun acc kp =>
          match snaps kp.1 with
          | none => acc
          | some sn => acc + kp.2.qty * sn.close) a
        = a + (opens.map fun kp => kp.2.qty * snapClose (snaps kp.1)).sum
  | [], _, a => by simp
  | kp :: l, h, a => by
    obtain ⟨sn, hsn⟩ := Option.isSome_iff_exists.mp (h kp (by simp))
    simp only [List.foldl_cons, List.map_cons, List.sum_cons, hsn]
    rw [portfolio_notional_fold snaps l (fun x hx => h x (by simp [hx])) (a + kp.2.qty * sn.close)]
    simp only [snapClose]
    ring

theorem portfolio_notional_eq_sum (snaps : SymKey → Option Snapshot)
    (opens : List (SymKey × Position)) (h : ∀ kp ∈ opens, (snaps kp.1).isSome) :
    portfolio_notional snaps opens =
      (opens.map fun kp => kp.2.qty * snapClose (snaps kp.1)).sum := by
  unfold portfolio_notional
  rw [portfolio_notional_fold snaps opens h 0]
  simp

theorem entryDecision_notional (rp : RiskParams) (tp : TradeParams) (blocked : List String)
    (snaps : SymKey → Option Snapshot) (equity : ℚ) (opens : List (SymKey × Position))
    (remaining : ℚ) (c : EntryCand) (pn : Position × ℚ)
    (h : entryDecision rp tp blocked snaps equity opens remaining c = some pn) :
    pn.2 = pn.1.qty * pn.1.entry := by
  unfold entryDecision at h
  cases hp : entryPos rp tp blocked snaps equity opens remaining c with
  | none => rw [hp] at h; exact Option.noConfusion h
  | some pos =>
    rw [hp] at h
    have h2 : some (pos, pos.qty * pos.entry) = some pn := h
    injection h2 with h3
    rw [← h3]

/-- C9: the remaining budget for entry evaluation starts at
`max(0, equity × maxExposureFraction − Σ stored-quantity × latest close)`
over the open positions (each of which has a snapshot this tick), and every
accepted entry immediately replaces the budget by
`max(0, budget − notional)` — with the notional computed as the accepted
position's quantity times its entry price — before the next candidate is
evaluated. -/
theorem c9_budget_threading (equity mpp : ℚ) (snaps : SymKey → Option Snapshot)
    (opens : List (SymKey × Position)) (rp : RiskParams) (tp : TradeParams)
    (blocked : List String) (eq2 : ℚ) (st : List (SymKey × Position) × ℚ) (c : EntryCand) :
    ((∀ kp ∈ opens, (snaps kp.1).isSome) →
      remaining_notional_start equity mpp snaps opens =
        max 0 (equity * mpp - (opens.map fun kp => kp.2.qty * snapClose (snaps kp.1)).sum)) ∧
    (∀ pn, entryDecision rp tp blocked snaps eq2 st.1 st.2 c = some pn →
      entryStep rp tp blocked snaps eq2 st c = (st.1 ++ [(c.key, pn.1)], max 0 (st.2 - pn.2)) ∧
      pn.2 = pn.1.qty * pn.1.entry) := by
  constructor
  · intro h
    unfold remaining_notional_start
    rw [portfolio_notional_eq_sum snaps opens h]
  · intro pn h
    refine ⟨?_, entryDecision_notional rp tp blocked snaps eq2 st.1 st.2 c pn h⟩
    unfold entryStep
    rw [h]

/-- Witness for C9 at a concrete tick: one open position with a snapshot,
then the acceptance of `c7Cand` decrementing the budget by its notional. -/
theorem c9_budget_threading_w :
    remaining_notional_start 1000 (6 / 10) c7Snaps [(("bybit", "AAA/USDT"), c4Pos)] =
      max 0 (1000 * (6 / 10) -
        ([(("bybit", "AAA/USDT"), c4Pos)].map
          fun kp => kp.2.qty * snapClose (c7Snaps kp.1)).sum) ∧
    entryStep rpDefault tmDefault [] c7Snaps 1000 ([], 5) c7Cand =
      ([(c7Cand.key, c9Pn.1)], max 0 (5 - c9Pn.2)) := by
  have h := c9_budget_threading 1000 (6 / 10) c7Snaps [(("bybit", "AAA/USDT"), c4Pos)]
    rpDefault tmDefault [] 1000 ([], 5) c7Cand
  refine ⟨h.1 ?_, ?_⟩
  · intro kp hkp
    fin_cases hkp
    with_unfolding_all decide
  · have h2 := (h.2 c9Pn (by set_option maxRecDepth 10000 in with_unfolding_all decide)).1
    simpa using h2

/-! ### Claim C10 -/

theorem entryPos_some_not_stable (rp : RiskParams) (tp : TradeParams) (blocked : List String)
    (snaps : SymKey → Option Snapshot) (equity : ℚ) (opens : List (SymKey × Position))
    (remaining : ℚ) (c : EntryCand) (pos : Position)
    (h : entryPos rp tp blocked snaps equity opens remaining c = some pos) :
    is_stable_pair_symbol c.key.2 = false := by
  by_cases hs : is_stable_pair_symbol c.key.2 = true
  · unfold entryPos at h
    rw [if_pos hs] at h
    exact Option.noConfusion h
  · exact Bool.eq_false_iff.mpr hs

theorem manageStep_keys (tp : TradeParams) (venue : SymKey → VenueTick)
    (snaps : SymKey → Option Snapshot) (P : SymKey → Prop)
    (acc : List (SymKey × Position) × ℚ) (kp : SymKey × Position)
    (hacc : ∀ x ∈ acc.1, P x.1) (hkp : P kp.1) :
    ∀ x ∈ (manageStep tp venue snaps acc kp).1, P x.1 := by
  unfold manageStep
  cases snaps kp.1 with
  | none =>
    intro x hx
    rcases List.mem_append.mp hx with h | h
    · exact hacc x h
    · rw [List.mem_singleton.mp h]
      exact hkp
  | some sn =>
    intro x hx
    dsimp only at hx
    split at hx
    · exact hacc x hx
    · rcases List.mem_append.mp hx with h | h
      · exact hacc x h
      · rw [List.mem_singleton.mp h]
        exact hkp

theorem foldl_manage_keys (tp : TradeParams) (venue : SymKey → VenueTick)
    (snaps : SymKey → Option Snapshot) (P : SymKey → Prop) :
    ∀ (opens : List (SymKey × Position)) (acc : List (SymKey × Position) × ℚ),
      (∀ x ∈ acc.1, P x.1) → (∀ kp ∈ opens, P kp.1) →
      ∀ x ∈ (List.foldl (manageStep tp venue snaps) acc opens).1, P x.1
  | [], acc, hacc, _ => by simpa using hacc
  | kp :: l, acc, hacc, hl => by
    simp only [List.foldl_cons]
    exact foldl_manage_keys tp venue snaps P l (manageStep tp venue snaps acc kp)
      (manageStep_keys tp venue snaps P acc kp hacc (hl kp (by simp)))
      (fun x hx => hl x (by simp [hx]))

theorem entryStep_not_stable (rp : RiskParams) (tp : TradeParams) (blocked : List String)
    (snaps : SymKey → Option Snapshot) (equity : ℚ)
    (st : List (SymKey × Position) × ℚ) (c : EntryCand)
    (hst : ∀ x ∈ st.1, is_stable_pair_symbol x.1.2 = false) :
    ∀ x ∈ (entryStep rp tp blocked snaps equity st c).1,
      is_stable_pair_symbol x.1.2 = false := by
  unfold entryStep
  cases hd : entryDecision rp tp blocked snaps equity st.1 st.2 c with
  | none => exact hst
  | some pn =>
    intro x hx
    dsimp only at hx
    rcases List.mem_append.mp hx with h | h
    · exact hst x h
    · rw [List.mem_singleton.mp h]
      unfold entryDecision at hd
      cases hp : entryPos rp tp blocked snaps equity st.1 st.2 c with
      | none => rw [hp] at hd; exact Option.noConfusion hd
      | some pos =>
        exact entryPos_some_not_stable rp tp blocked snaps equity st.1 st.2 c pos hp

theorem entriesLoop_not_stable (rp : RiskParams) (tp : TradeParams) (blocked : List String)
    (snaps : SymKey → Option Snapshot) (equity : ℚ) :
    ∀ (cands : List EntryCand) (st : List (SymKey × Position) × ℚ),
      (∀ x ∈ st.1, is_stable_pair_symbol x.1.2 = false) →
      ∀ x ∈ (entriesLoop rp tp blocked snaps equity cands st).1,
        is_stable_pair_symbol x.1.2 = false
  | [], st, h => by simpa [entriesLoop] using h
  | c :: l, st, h => by
    have hstep := entryStep_not_stable rp tp blocked snaps equity st c h
    simpa [entriesLoop, List.foldl_cons] using
      entriesLoop_not_stable rp tp blocked snaps equity l
        (entryStep rp tp blocked snaps equity st c) hstep

/-- C10: stable/stable pairs can never hold a position.  The startup
filter removes every stable/stable symbol from the connector symbol lists,
and one full tick (position management followed by new-entry evaluation)
preserves the invariant that no key of the open-position set is a
stable/stable symbol: management never adds keys, and the entry loop skips
every stable/stable candidate before any order is placed. -/
theorem c10_no_stable_pair_positions (syms : List String) (rp : RiskParams) (tp : TradeParams)
    (blocked : List String) (venue : SymKey → VenueTick) (snaps : SymKey → Option Snapshot)
    (cands : List EntryCand) (opens : List (SymKey × Position)) (equity : ℚ) :
    (∀ s2 ∈ filter_valid_symbols syms, is_stable_pair_symbol s2 = false) ∧
    ((∀ kp ∈ opens, is_stable_pair_symbol kp.1.2 = false) →
      ∀ kp ∈ tickPositions rp tp blocked venue snaps cands opens equity,
        is_stable_pair_symbol kp.1.2 = false) := by
  constructor
  · intro s2 hs2
    unfold filter_valid_symbols at hs2
    have h2 := List.of_mem_filter hs2
    simpa using h2
  · intro h kp hkp
    unfold tickPositions at hkp
    have hmanaged : ∀ x ∈ (manageTick tp venue snaps opens equity).1,
        is_stable_pair_symbol x.1.2 = false := by
      unfold manageTick
      exact foldl_manage_keys tp venue snaps (fun k => is_stable_pair_symbol k.2 = false)
        opens ([], equity) (by simp) h
    exact entriesLoop_not_stable rp tp blocked snaps
      (manageTick tp venue snaps opens equity).2 cands
      ((manageTick tp venue snaps opens equity).1,
        remaining_notional_start (manageTick tp venue snaps opens equity).2
          rp.max_position_pct snaps (manageTick tp venue snaps opens equity).1)
      hmanaged kp hkp

/-- Witness for C10: a concrete tick whose candidate list contains the
stable/stable symbol `USDC/USD` (which is skipped) starting from an empty
open set. -/
theorem c10_no_stable_pair_positions_w :
    is_stable_pair_symbol "USDC/USD" = true ∧
    ∀ kp ∈ tickPositions rpDefault tmDefault [] (fun _ => c2Venue) c7Snaps
        [⟨("bybit", "USDC/USD"), 0, false, ⟨1, none, none, none⟩, true⟩] [] 1000,
      is_stable_pair_symbol kp.1.2 = false := by
  refine ⟨by with_unfolding_all rfl, ?_⟩
  exact (c10_no_stable_pair_positions [] rpDefault tmDefault [] (fun _ => c2Venue) c7Snaps
    [⟨("bybit", "USDC/USD"), 0, false, ⟨1, none, none, none⟩, true⟩] [] 1000).2 (by simp)

/-! ### Claim C1 -/

set_option maxRecDepth 100000 in
/-- C1 evaluated at the scenario input (10 closed trades, win rate 20%,
average R `-0.4`, equity change `-12%`): the mode-selection block does
resolve to DEFENSIVE (both defensive thresholds are hit, and DEFENSIVE is
checked first), but `get_brain_settings` then raises `TypeError` at its
final `return BrainSettings(..., p2_PCT=P2_PCT, ...)` (`analyzer_v2.py`
line 414 passes a keyword that is not a field of the dataclass), so no
`BrainSettings` with mode DEFENSIVE is ever returned on the
10-or-more-trades path. -/
theorem c1_brain_defensive_scenario_raises :
    (compute_win_and_avgR c1Trades).1 = some (2 / 10) ∧
    (compute_win_and_avgR c1Trades).2 = some (-(4 / 10)) ∧
    compute_equity_change_pct c1Trades = some (-(12 / 100)) ∧
    brainMode c1Trades = Mode.DEFENSIVE ∧
    get_brain_settings ⟨true, true, c1Trades, []⟩ = Except.error BrainFailure.typeError := by
  refine ⟨?_, ?_, ?_, ?_, by with_unfolding_all rfl⟩ <;> with_unfolding_all decide

/-! ### Claim C3 -/

set_option maxRecDepth 100000 in
/-- Counterexample to C3: a refresh that finds fewer than 10 closed-trade
samples does not keep the previous shared parameters — `get_brain_settings`
returns the NORMAL-mode defaults on that path, and the tick loop applies
them wholesale, overwriting a previous DEFENSIVE configuration (risk
`0.003 → 0.005`) and dropping the previously blocked symbol. -/
theorem c3_low_sample_overwrites_cex :
    get_brain_settings ⟨true, true, [], []⟩ = Except.ok (defaultBrainSettings []) ∧
    (brainRefresh c3Prev ⟨true, true, [], []⟩).risk_per_trade = 5 / 1000 ∧
    c3Prev.risk_per_trade = 3 / 1000 ∧
    (brainRefresh c3Prev ⟨true, true, [], []⟩).blocked_symbols = [] ∧
    c3Prev.blocked_symbols = ["XRP/USDT"] ∧
    brainRefresh c3Prev ⟨true, true, [], []⟩ ≠ c3Prev := by
  refine ⟨by with_unfolding_all rfl, ?_, ?_, ?_, ?_, ?_⟩ <;> with_unfolding_all decide

/-- C3 amended: the shared parameters keep their previous values exactly
when `get_brain_settings` raises — the ledger read failing, or the
`TypeError` that every 10-or-more-samples evaluation hits — because the
refresh block is wrapped in `try/except`.  When fewer than 10 samples are
available the call instead returns normally with the NORMAL-mode defaults
(carrying the currently stored blocked set), and these replace the shared
RiskParameters and BlockedSymbolSet. -/
theorem c3_retention_amended (prev : SharedParams) (env : BrainEnv) :
    (∀ e, get_brain_settings env = Except.error e → brainRefresh prev env = prev) ∧
    (env.dsn = true → env.fetch_ok = true → env.closed_trades.length < 10 →
      brainRefresh prev env = applyBrainSettings (defaultBrainSettings env.blocked_fetch)) := by
  constructor
  · intro e he
    unfold brainRefresh
    rw [he]
  · intro h1 h2 h3
    simp [brainRefresh, get_brain_settings, h1, h2, h3]

/-- Witness for C3's amended claim: a failing ledger read keeps the
previous DEFENSIVE parameters; a 0-sample refresh replaces them with the
NORMAL defaults. -/
theorem c3_retention_amended_w :
    brainRefresh c3Prev ⟨true, false, [], []⟩ = c3Prev ∧
    brainRefresh c3Prev ⟨true, true, [], ["XRP/USDT"]⟩ =
      applyBrainSettings (defaultBrainSettings ["XRP/USDT"]) := by
  refine ⟨(c3_retention_amended c3Prev ⟨true, false, [], []⟩).1 BrainFailure.dbError rfl, ?_⟩
  exact (c3_retention_amended c3Prev ⟨true, true, [], ["XRP/USDT"]⟩).2 rfl rfl (by decide)

end TradingBot

